import Mathlib

/-!
# Verification of `examples/calibrate.py`

A shallow embedding of the IDS camera calibration script.  The camera
driver (`ids.Camera`) is external; it is modelled abstractly as a
`Driver` record supplying the observable quantities the script reads:
the pixel-clock range, the stream of frames returned by `next()`
(`none` models a raised driver error), and the quantised read-back
values of exposure and gain after they have been set.  Every hardware
interaction performed by `camera.capture` is recorded as an `Event` so
that ordering and counting properties can be stated about a call's
trace.  Python floats are modelled as rationals; images are flat lists
of pixel values.
-/

/-- One observable driver interaction performed by `camera.capture`
(a property assignment or a `next()` call), in program order. -/
inductive Event where
  | setPixelclock (v : ℚ)
  | setFramerate (v : ℚ)
  | setExposure (v : ℚ)
  | setGain (v : ℤ)
  | setGainBoost (b : Bool)
  | setContinuousCapture (b : Bool)
  | nextCall
deriving DecidableEq, Repr

/-- A frame produced by the driver: a flat list of pixel values. -/
abbrev Frame := List ℚ

/-- Abstract model of the `ids.Camera` driver.
`frames k` is the result of the `(k+1)`-st `next()` call after the
stream was enabled (`none` = the call raises); `actualExposure v` is
the value read back from `self._cam.exposure` after assigning `v`
(milliseconds, possibly quantised by the hardware); `actualGain`
likewise for `self._cam.gain`; `info` is the driver's info dict. -/
structure Driver where
  pixelclock_range : ℚ × ℚ
  frames : Nat → Option Frame
  actualExposure : ℚ → ℚ
  actualGain : ℤ → ℤ
  info : List (String × String)

/-- Constant `IDS_MAX_PIXEL_CLOCK = 30` (module level). -/
def IDS_MAX_PIXEL_CLOCK : ℚ := 30

/-- Tuple `EXPOSURE_VALUES` (module level). -/
def EXPOSURE_VALUES : List ℤ :=
  [100, 500, 1000, 5000, 10000, 50000, 100000, 500000, 1000000, 5000000, 8000000]

/-- Range `GAIN_VALUES = range(0, 101, 20)`. -/
def GAIN_VALUES : List ℤ := [0, 20, 40, 60, 80, 100]

/-- A numpy value as returned by the reduction step of `capture`:
either a 0-d scalar, a 1-d vector or a 2-d matrix. -/
inductive NpArray where
  | scalar (x : ℚ)
  | one (v : List ℚ)
  | two (m : List (List ℚ))
deriving DecidableEq, Repr

/-- Pointwise sum of a batch of equally-shaped frames
(the summation underlying `np.mean(imgs, axis=0)`). -/
def sumImgs : List Frame → Frame
  | [] => []
  | x :: xs => xs.foldl (fun a b => List.zipWith (· + ·) a b) x

/-- Model of `np.mean(imgs, axis=0)`: the pointwise arithmetic mean of the
batch, a 1-d array. -/
def meanImgs (l : List Frame) : NpArray :=
  NpArray.one ((sumImgs l).map (fun x => x / (l.length : ℚ)))

/-- Model of `np.squeeze(imgs)` for a list of frames viewed as a 2-d array:
axes of size one are removed.  (`.astype(np.float)` is the identity in
the rational model.) -/
def npSqueeze (l : List Frame) : NpArray :=
  match l with
  | [] => NpArray.one []
  | [[x]] => NpArray.scalar x
  | [f] => NpArray.one f
  | _ =>
    if l.all (fun f => f.length = 1) then NpArray.one (l.map (fun f => f.headI))
    else NpArray.two l

/-- Errors a `capture` call can raise: Python's `ZeroDivisionError`
from `1e6 / exposure_us`, or an error raised by the driver's
`next()`. -/
inductive CamError where
  | zeroDivision
  | frameError
deriving DecidableEq, Repr

/-- The value returned by a successful `capture` call:
`(img, self._cam.exposure * 1e3, self._cam.gain)`. -/
structure CaptureResult where
  img : NpArray
  exposure : ℚ
  gain : ℤ
deriving DecidableEq, Repr

/-- The `for i in range(average)` accumulation loop of `capture`:
pull `n` frames starting at `next()`-index `idx`, appending each to
`imgs`.  Returns the emitted events and either the final list or an
error if a pull raised. -/
def pullLoop (d : Driver) (n : Nat) (idx : Nat) (imgs : List Frame) :
    List Event × Except Unit (List Frame) :=
  match n with
  | 0 => ([], Except.ok imgs)
  | Nat.succ m =>
    match d.frames idx with
    | none => ([Event.nextCall], Except.error ())
    | some fr =>
      let rest := pullLoop d m (idx + 1) (imgs ++ [fr])
      (Event.nextCall :: rest.1, rest.2)

/-- Model of `camera.capture(exposure_us, gain, gain_boost, average)`:
the full event trace of the call together with its outcome. -/
def capture (d : Driver) (exposure_us : ℤ) (gain : ℤ) (gain_boost : Bool)
    (average : Nat) : List Event × Except CamError CaptureResult :=
  let pc : ℚ :=
    if exposure_us > 1000 then d.pixelclock_range.1 else IDS_MAX_PIXEL_CLOCK
  let cfg0 := [Event.setPixelclock pc]
  if exposure_us = 0 then
    (cfg0, Except.error CamError.zeroDivision)
  else
    let fr : ℚ := min 100 (1000000 / (exposure_us : ℚ))
    let cfg := cfg0 ++
      [Event.setFramerate fr,
       Event.setExposure ((exposure_us : ℚ) / 1000),
       Event.setGain gain,
       Event.setGainBoost gain_boost]
    match d.frames 0 with
    | none =>
      (cfg ++ [Event.setContinuousCapture true, Event.nextCall,
               Event.setContinuousCapture false],
       Except.error CamError.frameError)
    | some _ =>
      let lp := pullLoop d average 1 []
      let trace := cfg ++ [Event.setContinuousCapture true, Event.nextCall] ++
                   lp.1 ++ [Event.setContinuousCapture false]
      match lp.2 with
      | Except.error _ => (trace, Except.error CamError.frameError)
      | Except.ok imgs =>
        let img := if average > 0 then meanImgs imgs else npSqueeze imgs
        (trace,
         Except.ok ⟨img, d.actualExposure ((exposure_us : ℚ) / 1000) * 1000,
                    d.actualGain gain⟩)

/-! ## Artifact-name formatting and the sweep of `main` -/

/-- A decimal digit as a character. -/
def digitChar : Nat → Char
  | 0 => '0' | 1 => '1' | 2 => '2' | 3 => '3' | 4 => '4'
  | 5 => '5' | 6 => '6' | 7 => '7' | 8 => '8' | 9 => '9'
  | _ => '?'

/-- Numeric value of a decimal digit character. -/
def charVal (c : Char) : Nat :=
  match c with
  | '0' => 0 | '1' => 1 | '2' => 2 | '3' => 3 | '4' => 4
  | '5' => 5 | '6' => 6 | '7' => 7 | '8' => 8 | '9' => 9
  | _ => 10

/-- Little-endian decimal digits of a natural number, by fuel-bounded
recursion (so that it evaluates by kernel reduction). -/
def digitsLEAux : Nat → Nat → List Nat
  | 0, _ => []
  | _ + 1, 0 => []
  | fuel + 1, m + 1 => ((m + 1) % 10) :: digitsLEAux fuel ((m + 1) / 10)

/-- Little-endian decimal digits of a natural number. -/
def digitsLE (n : Nat) : List Nat := digitsLEAux n n

/-- The decimal digit characters of a natural number, most significant
first (empty for 0; only used zero-padded, matching Python). -/
def natDecimalChars (n : Nat) : List Char :=
  ((digitsLE n).map digitChar).reverse

/-- Left-pad a character list with zeros to width `w`
(Python's `{:0w}` padding). -/
def padZeros (w : Nat) (l : List Char) : List Char :=
  List.replicate (w - l.length) '0' ++ l

/-- Python's `"{:0w}".format(n)` for an integer `n`: zero-padded
decimal, sign first for negatives. -/
def formatWidth (w : Nat) (n : ℤ) : List Char :=
  if n < 0 then '-' :: padZeros (w - 1) (natDecimalChars n.natAbs)
  else padZeros w (natDecimalChars n.natAbs)

/-- Python's `"{}".format(b)` for a boolean. -/
def pyBoolStr (b : Bool) : List Char :=
  if b then ['T', 'r', 'u', 'e'] else ['F', 'a', 'l', 's', 'e']

/-- Model of `"exp_{:07}_gain_{:03}_boost_{}".format(exposure, gain, gain_boost)`. -/
def baseName (exposure gain : ℤ) (gain_boost : Bool) : List Char :=
  ['e', 'x', 'p', '_'] ++ formatWidth 7 exposure ++
  ['_', 'g', 'a', 'i', 'n', '_'] ++ formatWidth 3 gain ++
  ['_', 'b', 'o', 'o', 's', 't', '_'] ++ pyBoolStr gain_boost

/-- Decode a zero-padded decimal character field back to the number it
encodes (left inverse of `formatWidth` on non-negative inputs). -/
def decodeNat (l : List Char) : Nat :=
  Nat.ofDigits 10 ((l.map charVal).reverse)

/-- Contents of one file written by `main`: either the `info.json`
dump of the camera info, or a `.mat` file with its three named fields
`array`, `exposure` and `gain`. -/
inductive FileContent where
  | json (info : List (String × String))
  | mat (array : NpArray) (exposure : ℚ) (gain : ℤ)
deriving DecidableEq, Repr

/-- One file persisted by `main`, with its path components. -/
structure SavedFile where
  path : List String
  content : FileContent
deriving DecidableEq, Repr

/-- Errors `main` can raise: a missing `serial_num` key, or an error
propagated from a `capture` call. -/
inductive MainError where
  | keyError
  | cam (e : CamError)
deriving DecidableEq, Repr

/-- The innermost loop of `main`: `for exposure in exposures`, one
`capture` and one `sio.savemat` per exposure value. -/
def sweepExposures (d : Driver) (serial : String) (gain_boost : Bool)
    (gain : ℤ) (average : Nat) : List ℤ → Except CamError (List SavedFile)
  | [] => Except.ok []
  | e :: rest =>
    match (capture d e gain gain_boost average).2 with
    | Except.error err => Except.error err
    | Except.ok r =>
      match sweepExposures d serial gain_boost gain average rest with
      | Except.error err => Except.error err
      | Except.ok files =>
        Except.ok
          (⟨["results", serial, String.mk (baseName e gain gain_boost) ++ ".mat"],
            FileContent.mat r.img r.exposure r.gain⟩ :: files)

/-- The middle loop of `main`: `for gain in gains`. -/
def sweepGains (d : Driver) (serial : String) (gain_boost : Bool)
    (exposures : List ℤ) (average : Nat) :
    List ℤ → Except CamError (List SavedFile)
  | [] => Except.ok []
  | g :: rest =>
    match sweepExposures d serial gain_boost g average exposures with
    | Except.error err => Except.error err
    | Except.ok files =>
      match sweepGains d serial gain_boost exposures average rest with
      | Except.error err => Except.error err
      | Except.ok files2 => Except.ok (files ++ files2)

/-- The outer loop of `main`: `for gain_boost in boosts`. -/
def sweepBoosts (d : Driver) (serial : String) (exposures gains : List ℤ)
    (average : Nat) : List Bool → Except CamError (List SavedFile)
  | [] => Except.ok []
  | b :: rest =>
    match sweepGains d serial b exposures average gains with
    | Except.error err => Except.error err
    | Except.ok files =>
      match sweepBoosts d serial exposures gains average rest with
      | Except.error err => Except.error err
      | Except.ok files2 => Except.ok (files ++ files2)

/-- Model of `main`, parameterised by the sweep grids and averaging count (the
script hardcodes `EXPOSURE_VALUES`, `GAIN_VALUES`, `(False, True)` and
the default `average=10`): dump `info.json` under
`results/<serial_num>/`, then run the triple sweep, saving one `.mat`
file per point.  The returned list is in write order. -/
def mainSweep (exposures gains : List ℤ) (boosts : List Bool) (average : Nat)
    (d : Driver) : Except MainError (List SavedFile) :=
  match d.info.lookup "serial_num" with
  | none => Except.error MainError.keyError
  | some serial =>
    match sweepBoosts d serial exposures gains average boosts with
    | Except.error e => Except.error (MainError.cam e)
    | Except.ok files =>
      Except.ok (⟨["results", serial, "info.json"], FileContent.json d.info⟩ :: files)

/-- Model of `main()` exactly as in the script: the hardcoded grids, both boost
flags and the default `average=10`. -/
def mainRun (d : Driver) : Except MainError (List SavedFile) :=
  mainSweep EXPOSURE_VALUES GAIN_VALUES [false, true] 10 d

/-! ## Heap model for the `info` property (`self._cam.info.copy()`) -/

/-- A Python dict, here with string keys and values (the camera info
record). -/
abbrev Dict := List (String × String)

/-- Assignment `d[k] = v` on a Python dict: overwrite in place if present,
append otherwise. -/
def dictSet (d : Dict) (k v : String) : Dict :=
  if (d.lookup k).isSome then
    d.map (fun p => if p.1 = k then (k, v) else p)
  else d ++ [(k, v)]

/-- A heap of dict objects; a reference is an index into `cells`. -/
structure PyHeap where
  cells : List Dict
deriving Repr

/-- Read the dict object a reference points to. -/
def readCell (h : PyHeap) (r : Nat) : Dict := h.cells.getD r []

/-- Assignment `d[k] = v` through a reference: mutate the referenced cell. -/
def writeKey (h : PyHeap) (r : Nat) (k v : String) : PyHeap :=
  ⟨h.cells.set r (dictSet (readCell h r) k v)⟩

/-- The `camera.info` property: `return self._cam.info.copy()` —
allocate a fresh cell holding a copy of the driver's info dict and
return a reference to the fresh cell. -/
def infoProperty (h : PyHeap) (camInfoRef : Nat) : PyHeap × Nat :=
  (⟨h.cells ++ [readCell h camInfoRef]⟩, h.cells.length)

/-- Whether an event is a pixel-clock write. -/
def Event.isPixelclockSet : Event → Bool
  | Event.setPixelclock _ => true
  | _ => false

/-- Whether an event is a frame-rate write. -/
def Event.isFramerateSet : Event → Bool
  | Event.setFramerate _ => true
  | _ => false

/-- The five configuration writes a `capture` call performs before
enabling the stream (pixel clock, frame rate, exposure, gain,
gain boost), for a nonzero exposure. -/
def cfgList (d : Driver) (e g : ℤ) (b : Bool) : List Event :=
  [Event.setPixelclock
     (if 1000 < e then d.pixelclock_range.1 else IDS_MAX_PIXEL_CLOCK),
   Event.setFramerate (min 100 (1000000 / (e : ℚ))),
   Event.setExposure ((e : ℚ) / 1000),
   Event.setGain g, Event.setGainBoost b]

/-! ## Test drivers used to instantiate the theorems -/

/-- A stand-in driver: frame `i` is `[i, 2i]`, `next()` raises on its
10th call, exposure read-back adds `0.02` ms (quantisation — a request
of 100 µs = 0.1 ms reads back as 0.12 ms = 120 µs), gain read-back
adds 1. -/
def testDriver : Driver where
  pixelclock_range := (7, 86)
  frames := fun i => if i = 9 then none else some [(i : ℚ), 2 * i]
  actualExposure := fun v => v + 1 / 50
  actualGain := fun g => g + 1
  info := [("serial_num", "SN42"), ("model", "UI-1240")]

/-- A stand-in driver whose `next()` raises on its third call
(the second accumulated pull). -/
def failDriver : Driver where
  pixelclock_range := (7, 86)
  frames := fun i => if i = 2 then none else some [(i : ℚ)]
  actualExposure := fun v => v
  actualGain := fun g => g
  info := [("serial_num", "SN43")]

/-! ## Helper lemmas -/

/-- A successful run of the accumulation loop: when no pull raises,
`pullLoop` emits `n` `next()` events and appends the `n` frames at
indices `idx, idx+1, …` to the accumulator. -/
lemma pullLoop_ok (d : Driver) (n : Nat) :
    ∀ (idx : Nat) (imgs : List Frame),
    (∀ i, i < n → (d.frames (idx + i)).isSome) →
    pullLoop d n idx imgs =
      (List.replicate n Event.nextCall,
       Except.ok (imgs ++ (List.range n).map (fun i => (d.frames (idx + i)).getD []))) := by
  induction n with
  | zero => intro idx imgs _; simp [pullLoop]
  | succ m ih =>
    intro idx imgs hf
    have h0 : (d.frames idx).isSome := by simpa using hf 0 (Nat.succ_pos m)
    obtain ⟨fr, hfr⟩ := Option.isSome_iff_exists.mp h0
    have ih' := ih (idx + 1) (imgs ++ [fr]) (fun i hi => by
      have := hf (i + 1) (Nat.succ_lt_succ hi)
      simpa [Nat.add_comm, Nat.add_assoc, Nat.add_left_comm] using this)
    simp only [pullLoop, hfr, ih']
    refine Prod.ext (by simp [List.replicate_succ]) ?_
    simp only [List.range_succ_eq_map, List.map_cons, List.map_map]
    have harr : (fun i => (d.frames (idx + 1 + i)).getD []) =
        (fun i => (d.frames (idx + i)).getD []) ∘ Nat.succ := by
      funext i
      simp [Function.comp, Nat.add_comm, Nat.add_assoc, Nat.add_left_comm]
    simp [hfr, harr, List.append_assoc]

/-- Every event emitted by the accumulation loop is a `next()` call. -/
lemma pullLoop_events (d : Driver) (n : Nat) :
    ∀ (idx : Nat) (imgs : List Frame),
    ∀ ev ∈ (pullLoop d n idx imgs).1, ev = Event.nextCall := by
  induction n with
  | zero => intro idx imgs ev hev; simp [pullLoop] at hev
  | succ m ih =>
    intro idx imgs ev hev
    unfold pullLoop at hev
    cases hfr : d.frames idx with
    | none => simp [hfr] at hev; exact hev
    | some fr =>
      simp only [hfr] at hev
      rcases List.mem_cons.mp hev with h | h
      · exact h
      · exact ih (idx + 1) (imgs ++ [fr]) ev h

/-- Full characterisation of a successful `capture` call: with a
nonzero exposure and an error-free driver, the trace is the five
configuration writes, stream-enable, the warm-up pull, `N` accumulated
pulls and stream-disable, and the result is built from frames
`1, …, N`. -/
lemma capture_spec (d : Driver) (e g : ℤ) (b : Bool) (N : Nat)
    (he : e ≠ 0) (hf : ∀ i, i < N + 1 → (d.frames i).isSome) :
    capture d e g b N =
      ([Event.setPixelclock
          (if 1000 < e then d.pixelclock_range.1 else IDS_MAX_PIXEL_CLOCK),
        Event.setFramerate (min 100 (1000000 / (e : ℚ))),
        Event.setExposure ((e : ℚ) / 1000),
        Event.setGain g, Event.setGainBoost b,
        Event.setContinuousCapture true, Event.nextCall] ++
        List.replicate N Event.nextCall ++ [Event.setContinuousCapture false],
       Except.ok
         ⟨(if 0 < N then
             meanImgs ((List.range N).map (fun i => (d.frames (1 + i)).getD []))
           else
             npSqueeze ((List.range N).map (fun i => (d.frames (1 + i)).getD []))),
          d.actualExposure ((e : ℚ) / 1000) * 1000, d.actualGain g⟩) := by
  have h0 : (d.frames 0).isSome := hf 0 (Nat.succ_pos N)
  obtain ⟨w, hw⟩ := Option.isSome_iff_exists.mp h0
  have hl := pullLoop_ok d N 1 [] (fun i hi => hf (1 + i) (by omega))
  simp only [capture, if_neg he, hw, hl]
  simp [gt_iff_lt, Nat.pos_iff_ne_zero]

/-- The accumulation loop emits no configuration events. -/
lemma pullLoop_filter_nil (d : Driver) (n idx : Nat) (imgs : List Frame)
    (p : Event → Bool) (hp : p Event.nextCall = false) :
    (pullLoop d n idx imgs).1.filter p = [] := by
  rw [List.filter_eq_nil_iff]
  intro a ha
  rw [pullLoop_events d n idx imgs a ha, hp]
  simp

/-- Whatever the outcome of the pulls, the trace of a `capture` call
with nonzero exposure is: configuration writes, stream-enable, some
number of `next()` calls, then exactly one stream-disable. -/
lemma capture_trace_shape (d : Driver) (e g : ℤ) (b : Bool) (N : Nat)
    (he : e ≠ 0) :
    ∃ k, (capture d e g b N).1 =
      cfgList d e g b ++ [Event.setContinuousCapture true] ++
      List.replicate k Event.nextCall ++ [Event.setContinuousCapture false] := by
  cases hfr : d.frames 0 with
  | none =>
    refine ⟨1, ?_⟩
    simp [capture, if_neg he, hfr, cfgList]
  | some w =>
    have hrep : (pullLoop d N 1 []).1 =
        List.replicate (pullLoop d N 1 []).1.length Event.nextCall :=
      List.eq_replicate_of_mem (pullLoop_events d N 1 [])
    refine ⟨(pullLoop d N 1 []).1.length + 1, ?_⟩
    cases hl : (pullLoop d N 1 []).2 with
    | error err =>
      simp only [capture, if_neg he, hfr, hl]
      rw [hrep]
      simp [cfgList, List.replicate_succ]
    | ok imgs =>
      simp only [capture, if_neg he, hfr, hl]
      rw [hrep]
      simp [cfgList, List.replicate_succ]

/-! ## Claim theorems -/

/-- C1: for `average = N > 0` with an error-free driver (and a nonzero
exposure, without which the call raises before pulling), the returned
image is the arithmetic mean (`np.mean(·, axis=0)`) of exactly the `N`
frames pulled after the discarded warm-up frame, and the driver's
`next()` is invoked exactly `N + 1` times in the call. -/
theorem capture_average_mean_count (d : Driver) (e g : ℤ) (b : Bool) (N : Nat)
    (hN : 0 < N) (he : e ≠ 0) (hf : ∀ i, i < N + 1 → (d.frames i).isSome) :
    (capture d e g b N).2 =
      Except.ok ⟨meanImgs ((List.range N).map (fun i => (d.frames (1 + i)).getD [])),
                 d.actualExposure ((e : ℚ) / 1000) * 1000, d.actualGain g⟩ ∧
    (capture d e g b N).1.count Event.nextCall = N + 1 := by
  rw [capture_spec d e g b N he hf]
  refine ⟨by simp [hN], ?_⟩
  simp [List.count_append, List.count_cons]

/-- Witness for C1 at a concrete driver and `average = 2`. -/
theorem capture_average_mean_count_witness :
    0 < 2 ∧ (50 : ℤ) ≠ 0 ∧ (∀ i, i < 2 + 1 → (testDriver.frames i).isSome) ∧
    ((capture testDriver 50 3 false 2).2 =
      Except.ok ⟨meanImgs ((List.range 2).map (fun i => (testDriver.frames (1 + i)).getD [])),
                 testDriver.actualExposure ((50 : ℚ) / 1000) * 1000,
                 testDriver.actualGain 3⟩ ∧
     (capture testDriver 50 3 false 2).1.count Event.nextCall = 2 + 1) :=
  ⟨by decide, by decide, by decide,
   capture_average_mean_count testDriver 50 3 false 2 (by decide) (by decide) (by decide)⟩

/-- C3: in every `capture` call (whatever the exposure, including ones
that later raise), the pixel clock is written exactly once: to the
driver-reported minimum `pixelclock_range[0]` when `exposure_us > 1000`
and to the constant `IDS_MAX_PIXEL_CLOCK = 30` otherwise. -/
theorem capture_pixelclock_policy (d : Driver) (e g : ℤ) (b : Bool) (N : Nat) :
    (capture d e g b N).1.filter Event.isPixelclockSet =
      [Event.setPixelclock
        (if 1000 < e then d.pixelclock_range.1 else IDS_MAX_PIXEL_CLOCK)] ∧
    IDS_MAX_PIXEL_CLOCK = 30 := by
  refine ⟨?_, rfl⟩
  by_cases he : e = 0
  · subst he
    simp [capture, Event.isPixelclockSet]
  · cases hfr : d.frames 0 with
    | none =>
      simp [capture, if_neg he, hfr, Event.isPixelclockSet]
    | some w =>
      have hnil := pullLoop_filter_nil d N 1 [] Event.isPixelclockSet rfl
      cases hl : (pullLoop d N 1 []).2 with
      | error err =>
        simp [capture, if_neg he, hfr, hl, hnil, Event.isPixelclockSet]
      | ok imgs =>
        simp [capture, if_neg he, hfr, hl, hnil, Event.isPixelclockSet]

/-- C4: for every `capture` call with a positive exposure, the frame
rate is written exactly once, with value `min(100, 1e6 / exposure_us)`
(reals modelled as rationals). -/
theorem capture_framerate_value (d : Driver) (e g : ℤ) (b : Bool) (N : Nat)
    (he : 0 < e) :
    (capture d e g b N).1.filter Event.isFramerateSet =
      [Event.setFramerate (min 100 (1000000 / (e : ℚ)))] := by
  have he' : e ≠ 0 := ne_of_gt he
  cases hfr : d.frames 0 with
  | none =>
    simp [capture, if_neg he', hfr, Event.isFramerateSet]
  | some w =>
    have hnil := pullLoop_filter_nil d N 1 [] Event.isFramerateSet rfl
    cases hl : (pullLoop d N 1 []).2 with
    | error err =>
      simp [capture, if_neg he', hfr, hl, hnil, Event.isFramerateSet]
    | ok imgs =>
      simp [capture, if_neg he', hfr, hl, hnil, Event.isFramerateSet]

/-- Witness for C4 at a concrete exposure of 400 µs (where the cap of
100 fps is the minimum). -/
theorem capture_framerate_value_witness :
    (0 : ℤ) < 400 ∧
    (capture testDriver 400 0 false 1).1.filter Event.isFramerateSet =
      [Event.setFramerate (min 100 (1000000 / ((400 : ℤ) : ℚ)))] ∧
    min 100 (1000000 / ((400 : ℤ) : ℚ)) = 100 :=
  ⟨by decide, capture_framerate_value testDriver 400 0 false 1 (by decide),
   by norm_num⟩

/-- C5: every successful `capture` returns the driver's
post-configuration read-back values — the exposure read back (in
milliseconds, after quantisation of the requested
`exposure_us * 1e-3`) rescaled to microseconds by `* 1e3`, and the
read-back gain — never the caller's requested arguments. -/
theorem capture_returns_actual_values (d : Driver) (e g : ℤ) (b : Bool) (N : Nat)
    (he : e ≠ 0) (hf : ∀ i, i < N + 1 → (d.frames i).isSome) :
    ∃ img, (capture d e g b N).2 =
      Except.ok ⟨img, d.actualExposure ((e : ℚ) / 1000) * 1000, d.actualGain g⟩ := by
  rw [capture_spec d e g b N he hf]
  exact ⟨_, rfl⟩

/-- Witness for C5: a driver quantising a requested 100 µs (= 0.1 ms)
to 0.12 ms returns exposure 120 (µs, not ms) and the quantised gain 6,
not the requested 5. -/
theorem capture_returns_actual_values_witness :
    (100 : ℤ) ≠ 0 ∧ (∀ i, i < 1 + 1 → (testDriver.frames i).isSome) ∧
    (∃ img, (capture testDriver 100 5 false 1).2 =
      Except.ok ⟨img, testDriver.actualExposure (((100 : ℤ) : ℚ) / 1000) * 1000,
                 testDriver.actualGain 5⟩) ∧
    testDriver.actualExposure (((100 : ℤ) : ℚ) / 1000) * 1000 = 120 ∧
    testDriver.actualGain 5 = 6 :=
  ⟨by decide, by decide,
   capture_returns_actual_values testDriver 100 5 false 1 (by decide) (by decide),
   by norm_num [testDriver], by decide⟩

/-- C7 counterexample: with `average = 0` the loop `for i in range(0)`
pulls no frame at all after the warm-up frame — `next()` is called
exactly once in the whole call, so the accumulated collection is empty
(not a "single-element collection") and the returned image is the
empty array `np.squeeze([]).astype(np.float)`. -/
theorem capture_average_zero_cex :
    (capture testDriver 50 0 false 0).1.count Event.nextCall = 1 ∧
    (capture testDriver 50 0 false 0).2 =
      Except.ok ⟨NpArray.one [], 70, 1⟩ := by
  have hs := capture_spec testDriver 50 0 false 0 (by decide) (by decide)
  rw [hs]
  refine ⟨by decide, ?_⟩
  simp [npSqueeze]
  constructor <;> norm_num [testDriver]

/-- C7 (amended): for `average == 0` (nonzero exposure, error-free
warm-up pull), no mean is computed; zero frames are accumulated after
the warm-up frame, and the raw empty collection — squeezed and coerced
to a float array, i.e. the empty array — is returned. -/
theorem capture_average_zero_empty (d : Driver) (e g : ℤ) (b : Bool)
    (he : e ≠ 0) (hf0 : (d.frames 0).isSome) :
    (capture d e g b 0).2 =
      Except.ok ⟨NpArray.one [], d.actualExposure ((e : ℚ) / 1000) * 1000,
                 d.actualGain g⟩ ∧
    (capture d e g b 0).1.count Event.nextCall = 1 := by
  have hs := capture_spec d e g b 0 he (by
    intro i hi
    interval_cases i
    exact hf0)
  rw [hs]
  refine ⟨by simp [npSqueeze], ?_⟩
  simp [List.count_append, List.count_cons]

/-- Witness for C7's amended theorem at a concrete driver. -/
theorem capture_average_zero_empty_witness :
    (50 : ℤ) ≠ 0 ∧ (testDriver.frames 0).isSome ∧
    ((capture testDriver 50 4 true 0).2 =
      Except.ok ⟨NpArray.one [],
                 testDriver.actualExposure (((50 : ℤ) : ℚ) / 1000) * 1000,
                 testDriver.actualGain 4⟩ ∧
     (capture testDriver 50 4 true 0).1.count Event.nextCall = 1) :=
  ⟨by decide, by decide,
   capture_average_zero_empty testDriver 50 4 true (by decide) (by decide)⟩

/-- C10: calling `capture` with `exposure_us == 0` raises
`ZeroDivisionError` while computing `1e6 / exposure_us`, after the
pixel-clock write but before continuous capture is ever enabled (so no
stream is left enabled and no frame is pulled); and for every
`exposure_us ≠ 0` the frame-rate computation is well defined (a frame
rate is actually written). -/
theorem capture_zero_exposure_division (d : Driver) (g : ℤ) (b : Bool)
    (N : Nat) (e : ℤ) :
    ((capture d 0 g b N).2 = Except.error CamError.zeroDivision ∧
     Event.setContinuousCapture true ∉ (capture d 0 g b N).1 ∧
     Event.nextCall ∉ (capture d 0 g b N).1) ∧
    (e ≠ 0 → ∃ fr, Event.setFramerate fr ∈ (capture d e g b N).1) := by
  constructor
  · refine ⟨rfl, ?_, ?_⟩ <;> simp [capture]
  · intro he
    refine ⟨min 100 (1000000 / (e : ℚ)), ?_⟩
    cases hfr : d.frames 0 with
    | none => simp [capture, if_neg he, hfr]
    | some w =>
      cases hl : (pullLoop d N 1 []).2 with
      | error err => simp [capture, if_neg he, hfr, hl]
      | ok imgs => simp [capture, if_neg he, hfr, hl]

/-- Witness for C10's nonzero-exposure part at `exposure_us = 7`. -/
theorem capture_zero_exposure_division_witness :
    ((capture testDriver 0 3 true 2).2 = Except.error CamError.zeroDivision ∧
     Event.setContinuousCapture true ∉ (capture testDriver 0 3 true 2).1 ∧
     Event.nextCall ∉ (capture testDriver 0 3 true 2).1) ∧
    ((7 : ℤ) ≠ 0 ∧
     ∃ fr, Event.setFramerate fr ∈ (capture testDriver 7 3 true 2).1) :=
  ⟨(capture_zero_exposure_division testDriver 3 true 2 7).1,
   ⟨by decide, (capture_zero_exposure_division testDriver 3 true 2 7).2 (by decide)⟩⟩

/-- C2 counterexample: a call with `exposure_us = 0` raises
`ZeroDivisionError` before the stream is ever enabled, so continuous
capture is disabled zero times in that call — refuting "continuous
capture is disabled exactly once per call" for *every* call. -/
theorem capture_disable_count_cex :
    (capture testDriver 0 0 false 1).1.count (Event.setContinuousCapture false) = 0 := by
  decide

/-- C2 (amended): in every `capture` call with `exposure_us ≠ 0`, the
trace is configuration writes (no pulls, no stream toggles), then
stream-enable, then all the `next()` calls, then exactly one
stream-disable — so enable precedes every pull, every pull precedes
disable, and disable executes exactly once even when a pull (warm-up
or accumulated) raises, before the error propagates. -/
theorem capture_stream_bracketing (d : Driver) (e g : ℤ) (b : Bool) (N : Nat)
    (he : e ≠ 0) :
    ∃ cfg k, (capture d e g b N).1 =
        cfg ++ [Event.setContinuousCapture true] ++
        List.replicate k Event.nextCall ++ [Event.setContinuousCapture false] ∧
      Event.nextCall ∉ cfg ∧ (∀ bb, Event.setContinuousCapture bb ∉ cfg) ∧
      (capture d e g b N).1.count (Event.setContinuousCapture false) = 1 := by
  obtain ⟨k, hk⟩ := capture_trace_shape d e g b N he
  refine ⟨cfgList d e g b, k, hk, by simp [cfgList], by intro bb; simp [cfgList], ?_⟩
  rw [hk]
  simp [cfgList, List.count_append, List.count_cons, List.count_replicate]

/-- Witness for C2's amended theorem: a driver whose third `next()`
call raises (failure on the second accumulated pull) still yields the
bracketed trace with exactly one stream-disable, while the call itself
propagates the frame error. -/
theorem capture_stream_bracketing_witness :
    (500 : ℤ) ≠ 0 ∧
    (∃ cfg k, (capture failDriver 500 0 false 3).1 =
        cfg ++ [Event.setContinuousCapture true] ++
        List.replicate k Event.nextCall ++ [Event.setContinuousCapture false] ∧
      Event.nextCall ∉ cfg ∧ (∀ bb, Event.setContinuousCapture bb ∉ cfg) ∧
      (capture failDriver 500 0 false 3).1.count (Event.setContinuousCapture false) = 1) ∧
    (capture failDriver 500 0 false 3).2 = Except.error CamError.frameError :=
  ⟨by decide, capture_stream_bracketing failDriver 500 0 false 3 (by decide),
   by simp [capture, pullLoop, failDriver]⟩

/-- C9: `camera.info` returns `self._cam.info.copy()` — a reference
to a freshly allocated copy, distinct from the driver's own cell.
Mutating the returned dict changes neither the driver's stored info
nor the contents handed out by a subsequent `info` access. -/
theorem info_property_copy (h : PyHeap) (a : Nat) (ha : a < h.cells.length)
    (k v : String) :
    (infoProperty h a).2 ≠ a ∧
    readCell (writeKey (infoProperty h a).1 (infoProperty h a).2 k v) a
      = readCell h a ∧
    readCell (infoProperty (writeKey (infoProperty h a).1 (infoProperty h a).2 k v) a).1
        (infoProperty (writeKey (infoProperty h a).1 (infoProperty h a).2 k v) a).2
      = readCell h a := by
  have hne : h.cells.length ≠ a := by omega
  have hmut : readCell (writeKey (infoProperty h a).1 (infoProperty h a).2 k v) a
      = readCell h a := by
    show ((h.cells ++ [readCell h a]).set h.cells.length _).getD a [] = readCell h a
    rw [List.getD_eq_getElem?_getD, List.getElem?_set_ne hne,
        List.getElem?_append_left (by simpa using ha)]
    simp [readCell, List.getD_eq_getElem?_getD]
  refine ⟨hne, hmut, ?_⟩
  show ((writeKey (infoProperty h a).1 (infoProperty h a).2 k v).cells ++
      [readCell (writeKey (infoProperty h a).1 (infoProperty h a).2 k v) a]).getD
      (writeKey (infoProperty h a).1 (infoProperty h a).2 k v).cells.length [] = readCell h a
  rw [List.getD_eq_getElem?_getD, List.getElem?_concat_length]
  simpa using hmut

/-- Witness for C9 on a concrete two-cell heap: overwriting
`serial_num` through the copy leaves the driver's cell and later
`info` reads unchanged. -/
theorem info_property_copy_witness :
    0 < (PyHeap.mk [[("serial_num", "SN42")], [("x", "y")]]).cells.length ∧
    ((infoProperty (PyHeap.mk [[("serial_num", "SN42")], [("x", "y")]]) 0).2 ≠ 0 ∧
     readCell (writeKey (infoProperty (PyHeap.mk [[("serial_num", "SN42")], [("x", "y")]]) 0).1
         (infoProperty (PyHeap.mk [[("serial_num", "SN42")], [("x", "y")]]) 0).2
         "serial_num" "HACK") 0
       = readCell (PyHeap.mk [[("serial_num", "SN42")], [("x", "y")]]) 0 ∧
     readCell (infoProperty (writeKey (infoProperty (PyHeap.mk [[("serial_num", "SN42")], [("x", "y")]]) 0).1
           (infoProperty (PyHeap.mk [[("serial_num", "SN42")], [("x", "y")]]) 0).2
           "serial_num" "HACK") 0).1
         (infoProperty (writeKey (infoProperty (PyHeap.mk [[("serial_num", "SN42")], [("x", "y")]]) 0).1
           (infoProperty (PyHeap.mk [[("serial_num", "SN42")], [("x", "y")]]) 0).2
           "serial_num" "HACK") 0).2
       = readCell (PyHeap.mk [[("serial_num", "SN42")], [("x", "y")]]) 0) :=
  ⟨by decide,
   info_property_copy (PyHeap.mk [[("serial_num", "SN42")], [("x", "y")]]) 0
     (by decide) "serial_num" "HACK"⟩

/-- C6: the sweep with `EXPOSURE_VALUES = (100, 1000)`,
`GAIN_VALUES = (0, 20)`, the single boost flag `False` and
`average = 1` against an error-free driver writes exactly one
`info.json` plus the four `.mat` artifacts with the expected names,
each holding the three fields `array` (the averaged image),
`exposure` (actual, µs) and `gain` (actual), all under
`results/<serial_num>/`. -/
theorem mainSweep_four_artifacts (d : Driver) (s : String)
    (hs : d.info.lookup "serial_num" = some s)
    (hf : ∀ i, i < 2 → (d.frames i).isSome) :
    mainSweep [100, 1000] [0, 20] [false] 1 d =
      Except.ok
        [⟨["results", s, "info.json"], FileContent.json d.info⟩,
         ⟨["results", s, "exp_0000100_gain_000_boost_False.mat"],
          FileContent.mat (meanImgs [(d.frames 1).getD []])
            (d.actualExposure ((100 : ℚ) / 1000) * 1000) (d.actualGain 0)⟩,
         ⟨["results", s, "exp_0001000_gain_000_boost_False.mat"],
          FileContent.mat (meanImgs [(d.frames 1).getD []])
            (d.actualExposure ((1000 : ℚ) / 1000) * 1000) (d.actualGain 0)⟩,
         ⟨["results", s, "exp_0000100_gain_020_boost_False.mat"],
          FileContent.mat (meanImgs [(d.frames 1).getD []])
            (d.actualExposure ((100 : ℚ) / 1000) * 1000) (d.actualGain 20)⟩,
         ⟨["results", s, "exp_0001000_gain_020_boost_False.mat"],
          FileContent.mat (meanImgs [(d.frames 1).getD []])
            (d.actualExposure ((1000 : ℚ) / 1000) * 1000) (d.actualGain 20)⟩] := by
  have hfa : ∀ i, i < 1 + 1 → (d.frames i).isSome := fun i hi => hf i (by omega)
  have h1 := capture_spec d 100 0 false 1 (by decide) hfa
  have h2 := capture_spec d 1000 0 false 1 (by decide) hfa
  have h3 := capture_spec d 100 20 false 1 (by decide) hfa
  have h4 := capture_spec d 1000 20 false 1 (by decide) hfa
  have n1 : String.mk (baseName 100 0 false) ++ ".mat"
      = "exp_0000100_gain_000_boost_False.mat" := by decide
  have n2 : String.mk (baseName 1000 0 false) ++ ".mat"
      = "exp_0001000_gain_000_boost_False.mat" := by decide
  have n3 : String.mk (baseName 100 20 false) ++ ".mat"
      = "exp_0000100_gain_020_boost_False.mat" := by decide
  have n4 : String.mk (baseName 1000 20 false) ++ ".mat"
      = "exp_0001000_gain_020_boost_False.mat" := by decide
  simp only [mainSweep, sweepBoosts, sweepGains, sweepExposures, hs,
             h1, h2, h3, h4, n1, n2, n3, n4]
  norm_num [List.range_succ]

/-- The fuel-bounded digit function agrees with `Nat.digits 10`. -/
lemma digitsLEAux_eq : ∀ fuel m, m ≤ fuel → digitsLEAux fuel m = Nat.digits 10 m := by
  intro fuel
  induction fuel with
  | zero =>
    intro m hm
    interval_cases m
    simp [digitsLEAux]
  | succ f ih =>
    intro m hm
    cases m with
    | zero => simp [digitsLEAux]
    | succ k =>
      have hdiv : (k + 1) / 10 ≤ f := by
        have := Nat.div_lt_self (Nat.succ_pos k) (by norm_num : 1 < 10)
        omega
      rw [show digitsLEAux (f + 1) (k + 1)
            = ((k + 1) % 10) :: digitsLEAux f ((k + 1) / 10) from rfl,
          ih _ hdiv, Nat.digits_def' (by norm_num : (1 : ℕ) < 10) (Nat.succ_pos k)]

/-- Function `digitsLE` agrees with `Nat.digits 10`. -/
lemma digitsLE_eq (n : Nat) : digitsLE n = Nat.digits 10 n :=
  digitsLEAux_eq n n le_rfl

/-- Decimal digits are below 10. -/
lemma digitsLE_lt (n d : Nat) (hd : d ∈ digitsLE n) : d < 10 := by
  rw [digitsLE_eq] at hd
  exact Nat.digits_lt_base (by norm_num) hd

/-- Function `charVal` inverts `digitChar` on decimal digits. -/
lemma charVal_digitChar : ∀ d, d < 10 → charVal (digitChar d) = d := by decide

/-- Digit characters are never the underscore separator. -/
lemma digitChar_ne_underscore (d : Nat) : digitChar d ≠ '_' := by
  unfold digitChar
  split <;> decide

/-- A zero-padded non-negative decimal field contains no underscore. -/
lemma underscore_not_mem_formatWidth (w : Nat) (n : ℤ) (hn : 0 ≤ n) :
    '_' ∉ formatWidth w n := by
  unfold formatWidth
  rw [if_neg (not_lt.mpr hn)]
  intro hmem
  rcases List.mem_append.mp hmem with hrep | hdig
  · exact absurd (List.eq_of_mem_replicate hrep) (by decide)
  · unfold natDecimalChars at hdig
    rw [List.mem_reverse] at hdig
    obtain ⟨d, _, hd⟩ := List.mem_map.mp hdig
    exact digitChar_ne_underscore d hd

/-- Trailing (most-significant) zero digits contribute nothing. -/
lemma ofDigits_replicate_zero (b k : Nat) :
    Nat.ofDigits b (List.replicate k 0) = 0 := by
  induction k with
  | zero => simp
  | succ m ih => simp [List.replicate_succ, Nat.ofDigits_cons, ih]

/-- Function `decodeNat` is a left inverse of `formatWidth` on non-negative
integers, for every padding width. -/
lemma decode_formatWidth (w : Nat) (n : ℤ) (hn : 0 ≤ n) :
    decodeNat (formatWidth w n) = n.natAbs := by
  unfold decodeNat formatWidth padZeros natDecimalChars
  rw [if_neg (not_lt.mpr hn)]
  rw [List.map_append, List.map_replicate, List.map_reverse, List.map_map]
  have hid : (digitsLE n.natAbs).map (charVal ∘ digitChar) = digitsLE n.natAbs := by
    have hcg := List.map_congr_left
      (l := digitsLE n.natAbs) (f := charVal ∘ digitChar) (g := id)
      (fun d hd => charVal_digitChar d (digitsLE_lt _ d hd))
    simpa using hcg
  rw [hid, List.reverse_append, List.reverse_reverse, List.reverse_replicate]
  rw [digitsLE_eq, show charVal '0' = 0 from rfl, Nat.ofDigits_append,
      Nat.ofDigits_digits, ofDigits_replicate_zero]
  simp

/-- Splitting at an underscore separator is unambiguous when neither
left part contains an underscore. -/
lemma sep_split : ∀ (l1 l2 r1 r2 : List Char), '_' ∉ l1 → '_' ∉ l2 →
    l1 ++ '_' :: r1 = l2 ++ '_' :: r2 → l1 = l2 ∧ r1 = r2 := by
  intro l1
  induction l1 with
  | nil =>
    intro l2 r1 r2 _ h2 h
    cases l2 with
    | nil => simpa using h
    | cons y ys =>
      simp only [List.nil_append, List.cons_append, List.cons.injEq] at h
      exact absurd (by rw [← h.1]; exact List.mem_cons_self _ _) h2
  | cons x xs ih =>
    intro l2 r1 r2 h1 h2 h
    cases l2 with
    | nil =>
      simp only [List.cons_append, List.nil_append, List.cons.injEq] at h
      exact absurd (by rw [h.1]; exact List.mem_cons_self _ _) h1
    | cons y ys =>
      simp only [List.cons_append, List.cons.injEq] at h
      obtain ⟨hxy, htl⟩ := h
      have h1' : '_' ∉ xs := fun hm => h1 (List.mem_cons_of_mem _ hm)
      have h2' : '_' ∉ ys := fun hm => h2 (List.mem_cons_of_mem _ hm)
      obtain ⟨hl, hr⟩ := ih ys r1 r2 h1' h2' htl
      exact ⟨by rw [hxy, hl], hr⟩

/-- C8: the artifact-name encoding
`"exp_{exposure:07}_gain_{gain:03}_boost_{gain_boost}"` is injective
on non-negative exposures and gains with a boolean boost flag: equal
names force equal sweep tuples. -/
theorem baseName_injective (e1 g1 e2 g2 : ℤ) (b1 b2 : Bool)
    (he1 : 0 ≤ e1) (hg1 : 0 ≤ g1) (he2 : 0 ≤ e2) (hg2 : 0 ≤ g2)
    (h : baseName e1 g1 b1 = baseName e2 g2 b2) :
    e1 = e2 ∧ g1 = g2 ∧ b1 = b2 := by
  unfold baseName at h
  simp only [List.cons_append, List.nil_append, List.append_assoc,
             List.cons.injEq, true_and] at h
  obtain ⟨hF, hrest⟩ := sep_split _ _ _ _
    (underscore_not_mem_formatWidth 7 e1 he1)
    (underscore_not_mem_formatWidth 7 e2 he2) h
  have he : e1 = e2 := by
    have hd1 := decode_formatWidth 7 e1 he1
    have hd2 := decode_formatWidth 7 e2 he2
    rw [hF] at hd1
    omega
  simp only [List.cons.injEq, true_and] at hrest
  obtain ⟨hG, hrest2⟩ := sep_split _ _ _ _
    (underscore_not_mem_formatWidth 3 g1 hg1)
    (underscore_not_mem_formatWidth 3 g2 hg2) hrest
  have hg : g1 = g2 := by
    have hd1 := decode_formatWidth 3 g1 hg1
    have hd2 := decode_formatWidth 3 g2 hg2
    rw [hG] at hd1
    omega
  simp only [List.cons.injEq, true_and] at hrest2
  have hb : b1 = b2 := by
    cases b1 <;> cases b2 <;> simp [pyBoolStr] at hrest2 <;> rfl
  exact ⟨he, hg, hb⟩

/-- Witness for C8: equal names at a concrete non-negative tuple force
equal tuples. -/
theorem baseName_injective_witness :
    ((0 : ℤ) ≤ 100 ∧ (0 : ℤ) ≤ 20 ∧ baseName 100 20 false = baseName 100 20 false) ∧
    ((100 : ℤ) = 100 ∧ (20 : ℤ) = 20 ∧ false = false) :=
  ⟨⟨by decide, by decide, rfl⟩,
   baseName_injective 100 20 100 20 false false
     (by decide) (by decide) (by decide) (by decide) rfl⟩

/-- Witness for C6 at a concrete driver with serial `SN42`. -/
theorem mainSweep_four_artifacts_witness :
    testDriver.info.lookup "serial_num" = some "SN42" ∧
    (∀ i, i < 2 → (testDriver.frames i).isSome) ∧
    mainSweep [100, 1000] [0, 20] [false] 1 testDriver =
      Except.ok
        [⟨["results", "SN42", "info.json"], FileContent.json testDriver.info⟩,
         ⟨["results", "SN42", "exp_0000100_gain_000_boost_False.mat"],
          FileContent.mat (meanImgs [(testDriver.frames 1).getD []])
            (testDriver.actualExposure ((100 : ℚ) / 1000) * 1000) (testDriver.actualGain 0)⟩,
         ⟨["results", "SN42", "exp_0001000_gain_000_boost_False.mat"],
          FileContent.mat (meanImgs [(testDriver.frames 1).getD []])
            (testDriver.actualExposure ((1000 : ℚ) / 1000) * 1000) (testDriver.actualGain 0)⟩,
         ⟨["results", "SN42", "exp_0000100_gain_020_boost_False.mat"],
          FileContent.mat (meanImgs [(testDriver.frames 1).getD []])
            (testDriver.actualExposure ((100 : ℚ) / 1000) * 1000) (testDriver.actualGain 20)⟩,
         ⟨["results", "SN42", "exp_0001000_gain_020_boost_False.mat"],
          FileContent.mat (meanImgs [(testDriver.frames 1).getD []])
            (testDriver.actualExposure ((1000 : ℚ) / 1000) * 1000) (testDriver.actualGain 20)⟩] :=
  ⟨by decide, by decide,
   mainSweep_four_artifacts testDriver "SN42" (by decide) (by decide)⟩
